import Mathlib

/-!
A verification development for the booyah entity-composition core
(`src/entity.js`).  The JavaScript classes are shallowly embedded as Lean
structures and executable functions:

* mutable object fields become record fields, threaded explicitly;
* JavaScript exceptions (`throw new Error`, `TypeError` from dereferencing
  `undefined`/`null`) become `Except JsError`;
* `console.error` contract-violation logging becomes an `errors : List String`
  field;
* subclass hooks (`_setup`, `_update`, `_onSignal`) are modelled by an
  `EntityBehavior` record of pure scripts, since the base `Entity` class only
  ever invokes them and reads back `requestedTransition`.

Truthiness of `requestedTransition` (the source stores `null`, booleans,
strings or `Transition` objects in it) is modelled by `TransitionValue`.
-/

namespace Booyah

/-- `Transition` from entity.js: `{name = "done", params = {}}`.  The `params`
object is opaque to the core; we model it as an association list. -/
structure Transition where
  name : String := "done"
  params : List (String × String) := []
deriving DecidableEq, Repr

/-- The values the source stores in `requestedTransition` and passes around as
transition descriptors: `null`/`undefined`, a boolean, a bare string, or a
`Transition`-like object. -/
inductive TransitionValue where
  | null
  | bool (b : Bool)
  | str (s : String)
  | obj (t : Transition)
deriving DecidableEq, Repr

/-- JavaScript truthiness for a `TransitionValue`. -/
def TransitionValue.truthy : TransitionValue → Bool
  | .null => false
  | .bool b => b
  | .str s => !s.isEmpty
  | .obj _ => true

/-- A tracked event listener (`{emitter, event, cb}` pushed by `_on`);
emitter objects and callback functions are identified by numeric ids. -/
structure Listener where
  emitter : Nat
  event : String
  cb : Nat
deriving DecidableEq, Repr

/-- The argument object of `_off(emitter, event, cb)`: each key is present on
the `props` object but its value may be `undefined` (modelled by `none`). -/
structure ListenerProps where
  emitter : Option Nat := none
  event : Option String := none
  cb : Option Nat := none
deriving DecidableEq, Repr

/-- The base-class state of one entity object (`Entity` in entity.js).
`updatesSinceSetup`, `setupCount` and `teardownCount` are proof bookkeeping
used to observe how often the lifecycle methods ran; `errors` records the
`console.error` contract-violation messages. -/
structure EntityState where
  isSetup : Bool := false
  requestedTransition : TransitionValue := .null
  hasConfig : Bool := false
  eventListeners : List Listener := []
  updatesSinceSetup : Nat := 0
  setupCount : Nat := 0
  teardownCount : Nat := 0
  errors : List String := []
deriving DecidableEq, Repr

/-- Per-tick driver data; only `timeSinceStart` is read by the core. -/
structure FrameInfo where
  timeSinceStart : Int := 0
deriving DecidableEq, Repr

/-- The subclass hooks of an entity, as pure scripts.  `setupScript` is the
value (if any) the `_setup` hook assigns to `requestedTransition`;
`updateScript` receives the child-relative `timeSinceStart` and the number of
completed updates since the last setup; `onSignalScript` receives the signal
name. -/
structure EntityBehavior where
  setupScript : Option TransitionValue := none
  updateScript : Int → Nat → Option TransitionValue := fun _ _ => none
  onSignalScript : String → Option TransitionValue := fun _ => none

instance : Inhabited EntityBehavior := ⟨{}⟩
instance : Inhabited EntityState := ⟨{}⟩

/-- `_.isMatch(listener, props)` as underscore evaluates it for the `props`
object built by `_off`: all three keys are present on `props`, so a listener
matches only when each of its fields is strictly equal to the corresponding
`props` value (an `undefined` value in `props` never equals a real field). -/
def listenerMatches (p : ListenerProps) (l : Listener) : Bool :=
  p.emitter == some l.emitter && p.event == some l.event && p.cb == some l.cb

namespace Entity

/-- `Entity.prototype.setup(entityConfig, frameInfo)`. -/
def setup (beh : EntityBehavior) (s : EntityState) : EntityState :=
  let s := if s.isSetup then
      { s with errors := s.errors ++ ["setup() called twice"] } else s
  let s := { s with hasConfig := true, isSetup := true,
                    requestedTransition := .null, updatesSinceSetup := 0,
                    setupCount := s.setupCount + 1 }
  match beh.setupScript with
  | none => s
  | some v => { s with requestedTransition := v }

/-- `Entity.prototype.update(frameInfo)`. -/
def update (beh : EntityBehavior) (fi : FrameInfo) (s : EntityState) : EntityState :=
  let s := if !s.isSetup then
      { s with errors := s.errors ++ ["update() called before setup()"] } else s
  let s' := match beh.updateScript fi.timeSinceStart s.updatesSinceSetup with
    | none => s
    | some v => { s with requestedTransition := v }
  { s' with updatesSinceSetup := s.updatesSinceSetup + 1 }

/-- `Entity.prototype._on(emitter, event, cb)`: records the listener (the
external `emitter.on` call is outside the model). -/
def onEvt (l : Listener) (s : EntityState) : EntityState :=
  { s with eventListeners := s.eventListeners ++ [l] }

/-- `Entity.prototype._off(emitter, event, cb)`: partitions the tracked
listeners with `_.partition(this.eventListeners, props)` and keeps the
non-matching ones. -/
def offEvt (p : ListenerProps) (s : EntityState) : EntityState :=
  { s with eventListeners := s.eventListeners.filter fun l => !listenerMatches p l }

/-- `Entity.prototype.teardown(frameInfo)`: error check, `_teardown` hook
(a no-op for the modelled leaves), `this._off()` with all three arguments
`undefined`, then clears the config and the setup flag. -/
def teardown (s : EntityState) : EntityState :=
  let s := if !s.isSetup then
      { s with errors := s.errors ++ ["teardown() called before setup()"] } else s
  let s := offEvt {} s
  { s with hasConfig := false, isSetup := false,
           teardownCount := s.teardownCount + 1 }

/-- `Entity.prototype.onSignal(signal, frameInfo, data)`. -/
def onSignal (beh : EntityBehavior) (signal : String) (s : EntityState) : EntityState :=
  let s := if !s.hasConfig then
      { s with errors := s.errors ++ ["onSignal() called before setup()"] } else s
  match beh.onSignalScript signal with
  | none => s
  | some v => { s with requestedTransition := v }

end Entity

/-- The behaviour of `Transitory`: its `_setup` hook assigns
`this.requestedTransition = this.transition` (default `new Transition()`). -/
def Transitory.beh : EntityBehavior := { setupScript := some (.obj {}) }

/-- JavaScript runtime errors surfaced by the embedded code. -/
inductive JsError where
  | typeError (msg : String)
  | error (msg : String)
deriving DecidableEq, Repr

/-- The options argument of the `Parallel` constructor: a plain object whose
`autoTransition` key may be absent (`none`). -/
structure JsParallelOptionsArg where
  autoTransition : Option Bool := none
deriving DecidableEq, Repr

/-- `this.options = { ...options, ...new ParallelOptions() }` from the
`Parallel` constructor: the object is built by spreading the caller's options
first, then spreading a fresh `ParallelOptions` (whose constructor assigns
`autoTransition = true` as an own property), so the second spread overwrites
the key. -/
def Parallel.mergedOptions (options : JsParallelOptionsArg) : JsParallelOptionsArg :=
  let afterFirstSpread := options
  let defaults : JsParallelOptionsArg := { autoTransition := some true }
  { afterFirstSpread with autoTransition := defaults.autoTransition }

/-- The state of one `Parallel` object.  Descriptors are modelled as distinct
bare entity instances, so `entityContextDescriptors.indexOf(d)` is the
position of `d`; `childStates i` is the runtime state of the instance that
descriptor `i` resolves to, and slot `i` of `entityContexts` holds `some ()`
when the `EntityContext` for descriptor `i` is present and `none` when the
slot was set to `null`.  The whole `entityContexts` field is `Option`-wrapped
because the constructor never assigns it (it stays `undefined` until some
other method assigns it). -/
structure ParallelState where
  base : EntityState
  descriptors : List EntityBehavior
  childStates : List EntityState
  options : JsParallelOptionsArg
  entityContexts : Option (List (Option Unit))

/-- The `Parallel` constructor. -/
def Parallel.mk (ds : List EntityBehavior) (options : JsParallelOptionsArg) : ParallelState :=
  { base := {}, descriptors := ds, childStates := ds.map fun _ => {},
    options := Parallel.mergedOptions options, entityContexts := none }

/-- `BaseComposite._activateChildEntity`:  resolves descriptor `i` (a bare
entity instance here), computes the child config with `processEntityConfig`
(the identity, no override being given) and calls `setup` on the instance.
The returned `EntityContext` is the `some ()` marker for slot `i`. -/
def Parallel.activateChild (p : ParallelState) (i : Nat) : ParallelState :=
  { p with childStates :=
      (p.childStates.set i
        (Entity.setup (p.descriptors.getD i default) (p.childStates.getD i default))) }

/-- `BaseComposite._deactivateChildEntity`: tears the child of slot `i` down. -/
def Parallel.deactivateChild (p : ParallelState) (i : Nat) : ParallelState :=
  { p with childStates :=
      p.childStates.set i (Entity.teardown (p.childStates.getD i default)) }

/-- The loop body of `Parallel.setup`: for each descriptor index,
`this.entityContexts.push(this._activateChildEntity(...))`.  The argument is
evaluated before the push, so the child is set up even when `entityContexts`
is still `undefined` — in which case the push itself throws a `TypeError`. -/
def Parallel.setupChildren (p : ParallelState) : List Nat → Except JsError ParallelState
  | [] => .ok p
  | i :: rest =>
    let p := Parallel.activateChild p i
    match p.entityContexts with
    | none => .error (.typeError "Cannot read properties of undefined (reading push)")
    | some ctxs =>
      Parallel.setupChildren { p with entityContexts := some (ctxs ++ [some ()]) } rest

/-- `Parallel.prototype.setup(entityConfig, frameInfo)`. -/
def Parallel.setup (p : ParallelState) (_fi : FrameInfo) : Except JsError ParallelState :=
  let p := { p with base := Entity.setup {} p.base }
  Parallel.setupChildren p (List.range p.descriptors.length)

/-- `BaseComposite._updateChildEntity(entityContext, frameInfo)`: updates the
child of slot `i`; when the child's `requestedTransition` is truthy, the child
is deactivated (torn down) and the transition is returned, otherwise the
function returns `undefined` (modelled as `.null`, also falsy). -/
def Parallel.updateChildEntity (p : ParallelState) (i : Nat) (fi : FrameInfo) :
    ParallelState × TransitionValue :=
  let cs := Entity.update (p.descriptors.getD i default) fi (p.childStates.getD i default)
  let p := { p with childStates := p.childStates.set i cs }
  if cs.requestedTransition.truthy then
    (Parallel.deactivateChild p i, cs.requestedTransition)
  else
    (p, .null)

/-- One iteration of the `Parallel.update` loop over slot `i`: skip `null`
slots; otherwise call `_updateChildEntity`, and if it returned a truthy
transition, call `_deactivateChildEntity` on the same context a second time
and set the slot to `null`. -/
def Parallel.updateIdx (fi : FrameInfo) (pc : ParallelState × List (Option Unit)) (i : Nat) :
    ParallelState × List (Option Unit) :=
  let (p, ctxs) := pc
  match ctxs.getD i none with
  | none => (p, ctxs)
  | some _ =>
    let (p, transition) := Parallel.updateChildEntity p i fi
    if transition.truthy then
      (Parallel.deactivateChild p i, ctxs.set i none)
    else
      (p, ctxs)

/-- Truthiness of the `options.autoTransition` value (`undefined` is falsy). -/
def optTruthy (o : Option Bool) : Bool := o.getD false

/-- `Parallel.prototype.update(frameInfo)`.  After the loop,
`if (this.options.autoTransition && !_.some(this.entityContexts))` requests a
fresh default transition. -/
def Parallel.update (p : ParallelState) (fi : FrameInfo) : Except JsError ParallelState :=
  let p := { p with base := Entity.update {} fi p.base }
  match p.entityContexts with
  | none => .error (.typeError "Cannot read properties of undefined (reading length)")
  | some ctxs =>
    let (p, ctxs) := (List.range ctxs.length).foldl (Parallel.updateIdx fi) (p, ctxs)
    let p := { p with entityContexts := some ctxs }
    if optTruthy p.options.autoTransition && !ctxs.any Option.isSome then
      .ok { p with base := { p.base with requestedTransition := .obj {} } }
    else
      .ok p

/-- `Parallel.prototype._getChildEntityIndex(entityContextDescriptor)`:
`indexOf` on the (distinct) descriptor instances, throwing when the
descriptor is not found. -/
def Parallel.getChildEntityIndex (p : ParallelState) (d : Nat) : Except JsError Nat :=
  if d < p.descriptors.length then .ok d
  else .error (.error "Cannot find entity to remove")

/-- `Parallel.prototype.activateChildEntity(entityContextDescriptor, frameInfo)`. -/
def Parallel.activateChildEntity (p : ParallelState) (d : Nat) (_fi : FrameInfo) :
    Except JsError ParallelState :=
  if !p.base.isSetup then .ok p
  else
    match Parallel.getChildEntityIndex p d with
    | .error e => .error e
    | .ok index =>
      match p.entityContexts with
      | none => .error (.typeError "Cannot read properties of undefined")
      | some ctxs =>
        if (ctxs.getD index none).isSome then
          .error (.error "Entity is already activated")
        else
          let p := Parallel.activateChild p index
          .ok { p with entityContexts := some (ctxs.set index (some ())) }

/-- `Parallel.prototype.deactivateChildEntity(entityContextDescriptor,
frameInfo)`, exactly as written in the source: the guard throws when
`this.entityContexts[index]` is truthy (i.e. when the slot is active), and
otherwise `this._deactivateChildEntity(this.entityContexts[index], ...)`
dereferences the `null` slot. -/
def Parallel.deactivateChildEntity (p : ParallelState) (d : Nat) (_fi : FrameInfo) :
    Except JsError ParallelState :=
  if !p.base.isSetup then .ok p
  else
    match Parallel.getChildEntityIndex p d with
    | .error e => .error e
    | .ok index =>
      match p.entityContexts with
      | none => .error (.typeError "Cannot read properties of undefined")
      | some ctxs =>
        if (ctxs.getD index none).isSome then
          .error (.error "Entity is already activated")
        else
          .error (.typeError "Cannot read properties of null (reading entity)")

/-- The state of one `EntitySequence` object.  Descriptors are modelled as
entity instances (a factory descriptor creates its entity at activation with
the same fresh bookkeeping, so it behaves identically here) and
`childStates i` is the runtime state of the instance at position `i`.
`hasCurrentEntity` tracks whether `this.currentEntity` is non-null; it always
refers to the instance at `currentEntityIndex`, because every place that
changes the index immediately activates the new instance.
`lastRequestedTransition` mirrors the field read by `update`; no method of the
class ever assigns it, so it stays `null`. -/
structure SequenceState where
  base : EntityState
  entities : List EntityBehavior
  childStates : List EntityState
  currentEntityIndex : Nat
  hasCurrentEntity : Bool
  childStartedAt : Int
  lastUpdateOptions : Option FrameInfo
  lastRequestedTransition : TransitionValue
  loop : Bool

/-- The `EntitySequence` constructor (`loop` from `options.loop`). -/
def EntitySequence.mk (entities : List EntityBehavior) (loop : Bool := false) : SequenceState :=
  { base := {}, entities, childStates := entities.map fun _ => {},
    currentEntityIndex := 0, hasCurrentEntity := false, childStartedAt := 0,
    lastUpdateOptions := none, lastRequestedTransition := .null, loop }

/-- `EntitySequence.prototype._activateEntity(time)`: resolves the descriptor
at `currentEntityIndex` and calls `setup` on it.  When the index is out of
range the descriptor is `undefined` and `currentEntity.setup` throws. -/
def EntitySequence.activateEntity (s : SequenceState) (time : Int) : Except JsError SequenceState :=
  if s.currentEntityIndex < s.entities.length then
    let beh := s.entities.getD s.currentEntityIndex default
    let cs := Entity.setup beh (s.childStates.getD s.currentEntityIndex default)
    .ok { s with childStates := (s.childStates.set s.currentEntityIndex cs),
                 hasCurrentEntity := true, childStartedAt := time }
  else
    .error (.typeError "Cannot read properties of undefined (reading setup)")

/-- `EntitySequence.prototype._deactivateEntity()`. -/
def EntitySequence.deactivateEntity (s : SequenceState) : SequenceState :=
  if s.hasCurrentEntity && (s.childStates.getD s.currentEntityIndex default).isSetup then
    { s with childStates :=
        (s.childStates.set s.currentEntityIndex
          (Entity.teardown (s.childStates.getD s.currentEntityIndex default))) }
  else s

/-- `EntitySequence.prototype._advance(transition)`. -/
def EntitySequence.advance (s : SequenceState) (transition : TransitionValue) :
    Except JsError SequenceState :=
  if s.currentEntityIndex < s.entities.length - 1 then
    let s := EntitySequence.deactivateEntity s
    let s := { s with currentEntityIndex := s.currentEntityIndex + 1 }
    match s.lastUpdateOptions with
    | none => .error (.typeError "Cannot read properties of undefined (reading timeSinceStart)")
    | some lu => EntitySequence.activateEntity s lu.timeSinceStart
  else if s.loop then
    let s := EntitySequence.deactivateEntity s
    let s := { s with currentEntityIndex := 0 }
    match s.lastUpdateOptions with
    | none => .error (.typeError "Cannot read properties of undefined (reading timeSinceStart)")
    | some lu => EntitySequence.activateEntity s lu.timeSinceStart
  else
    let s := EntitySequence.deactivateEntity s
    .ok { s with base := { s.base with requestedTransition := transition } }

/-- `EntitySequence.prototype.setup(config)`. -/
def EntitySequence.setup (s : SequenceState) : Except JsError SequenceState :=
  let s := { s with base := Entity.setup {} s.base }
  let s := { s with currentEntityIndex := 0, hasCurrentEntity := false }
  EntitySequence.activateEntity s 0

/-- `EntitySequence.prototype.update(options)`.  Note the guard reads the
never-assigned `lastRequestedTransition` field, and the current child is
updated with the child-relative `timeSinceStart`. -/
def EntitySequence.update (s : SequenceState) (options : FrameInfo) :
    Except JsError SequenceState :=
  let s := { s with base := Entity.update {} options s.base }
  if s.lastRequestedTransition.truthy then .ok s
  else
    let childOptions : FrameInfo :=
      { options with timeSinceStart := options.timeSinceStart - s.childStartedAt }
    let s := { s with lastUpdateOptions := some options }
    if s.entities.length ≤ s.currentEntityIndex then .ok s
    else if !s.hasCurrentEntity then
      .error (.typeError "Cannot read properties of null (reading update)")
    else
      let cs := Entity.update (s.entities.getD s.currentEntityIndex default) childOptions
        (s.childStates.getD s.currentEntityIndex default)
      let s := { s with childStates := (s.childStates.set s.currentEntityIndex cs) }
      if cs.requestedTransition.truthy then EntitySequence.advance s cs.requestedTransition
      else .ok s

/-- `EntitySequence.prototype.restart()`: deactivate, reset the index to 0,
set `requestedTransition` to the boolean `false`, and reactivate at time 0. -/
def EntitySequence.restart (s : SequenceState) : Except JsError SequenceState :=
  let s := EntitySequence.deactivateEntity s
  let s := { s with currentEntityIndex := 0,
                    base := { s.base with requestedTransition := .bool false } }
  EntitySequence.activateEntity s 0

/-- `EntitySequence.prototype.onSignal(signal, frameInfo, data)`: ignored once
the sequence has requested its own transition; otherwise forwards to the
current entity and restarts when the signal is literally `"reset"`. -/
def EntitySequence.onSignal (s : SequenceState) (signal : String) :
    Except JsError SequenceState :=
  if s.base.requestedTransition.truthy then .ok s
  else
    let s := { s with base := Entity.onSignal {} signal s.base }
    if !s.hasCurrentEntity then
      .error (.typeError "Cannot read properties of null (reading onSignal)")
    else
      let cs := Entity.onSignal (s.entities.getD s.currentEntityIndex default) signal
        (s.childStates.getD s.currentEntityIndex default)
      let s := { s with childStates := (s.childStates.set s.currentEntityIndex cs) }
      if signal = "reset" then EntitySequence.restart s else .ok s

/-- Parameter objects for state machines; `none` models `undefined`. -/
abbrev Params := List (String × String)

/-- A value of the `states` table: an entity instance, or a factory
`(params, machine) => entity`. -/
inductive StateDescrEntry where
  | inst (e : EntityBehavior)
  | factory (f : Option Params → EntityBehavior)

/-- A value of the `transitions` table: a literal next-state name, a function
`(requestedTransitionName, requestedTransitionParams, machine) =>
nextStateDescriptor`, or any other shape (which `update` rejects). -/
inductive TransitionEntry where
  | strE (s : String)
  | fnE (f : TransitionValue → Option Params → TransitionValue)
  | badE

/-- The state of one `StateMachine` object.  `current` bundles `this.state`
and `this.stateName`: the current state's name, the behaviour of its live
entity instance and that instance's runtime state (the source keeps the
instance in the `states` table; since our hooks are pure scripts and `setup`
reinitialises every field that is read after a teardown, activation starts
from fresh bookkeeping).  `setupLog` and `factoryLog` record, for the proofs,
the state names whose entity received `setup` resp. was created by a factory
call. -/
structure SMState where
  base : EntityState
  states : List (String × StateDescrEntry)
  transitions : List (String × TransitionEntry)
  startingState : String
  endingStates : List String
  startingStateParams : Option Params
  current : Option (String × EntityBehavior × EntityState)
  stateParams : Option Params
  sceneStartedAt : Int
  visitedStates : List String
  setupLog : List String
  factoryLog : List String

/-- The `StateMachine` constructor with its `setupOptions` defaults. -/
def StateMachine.mk (states : List (String × StateDescrEntry))
    (transitions : List (String × TransitionEntry))
    (startingState : String := "start") (endingStates : List String := ["end"])
    (startingStateParams : Option Params := some []) : SMState :=
  { base := {}, states, transitions, startingState, endingStates,
    startingStateParams, current := none, stateParams := none,
    sceneStartedAt := 0, visitedStates := [], setupLog := [], factoryLog := [] }

/-- `StateMachine.prototype._changeState(timeSinceStart, nextStateName,
nextStateParams)`.  An ending state only records the requested transition and
the visit; otherwise the current state is torn down, and the next state is
looked up in `states`, instantiated if it is a factory, and set up. -/
def SMState.changeState (sm : SMState) (timeSinceStart : Int) (nextStateName : String)
    (nextStateParams : Option Params) : Except JsError SMState :=
  if sm.endingStates.contains nextStateName then
    .ok { sm with base := { sm.base with requestedTransition := .str nextStateName },
                  visitedStates := sm.visitedStates ++ [nextStateName] }
  else
    let sm := match sm.current with
      | some (n, beh, cs) => { sm with current := some (n, beh, Entity.teardown cs) }
      | none => sm
    match List.lookup nextStateName sm.states with
    | none => .error (.error ("Cannot find state " ++ nextStateName))
    | some desc =>
      let (beh, sm) : EntityBehavior × SMState := match desc with
        | .inst e => (e, sm)
        | .factory f =>
            (f nextStateParams, { sm with factoryLog := sm.factoryLog ++ [nextStateName] })
      let cs := Entity.setup beh {}
      .ok { sm with current := some (nextStateName, beh, cs),
                    setupLog := sm.setupLog ++ [nextStateName],
                    sceneStartedAt := timeSinceStart,
                    stateParams := nextStateParams,
                    visitedStates := sm.visitedStates ++ [nextStateName] }

/-- `StateMachine.prototype.setup(config)` (with a plain starting-state name,
as in the constructor defaults). -/
def SMState.setup (sm : SMState) : Except JsError SMState :=
  let sm := { sm with base := Entity.setup {} sm.base }
  let sm := { sm with visitedStates := [] }
  SMState.changeState sm 0 sm.startingState sm.startingStateParams

/-- `StateMachine.prototype.update(options)`: update the live state with the
state-relative `timeSinceStart`; when it requested a transition, normalise the
request, resolve the next-state descriptor (shorthand path, missing-entry
error, or the transition table), normalise that descriptor and change state. -/
def SMState.update (sm : SMState) (options : FrameInfo) : Except JsError SMState :=
  let sm := { sm with base := Entity.update {} options sm.base }
  match sm.current with
  | none => .ok sm
  | some (curName, beh, cs) =>
    let stateOptions : FrameInfo :=
      { options with timeSinceStart := options.timeSinceStart - sm.sceneStartedAt }
    let cs := Entity.update beh stateOptions cs
    let sm := { sm with current := some (curName, beh, cs) }
    let rt := cs.requestedTransition
    if rt.truthy then
      let (rtName, rtParams) : TransitionValue × Option Params := match rt with
        | .obj t => (.str t.name, some t.params)
        | v => (v, none)
      let nameInStates : Bool := match rtName with
        | .str s => (List.lookup s sm.states).isSome
        | _ => false
      let curInTransitions : Bool := (List.lookup curName sm.transitions).isSome
      let nextDesc? : Except JsError TransitionValue :=
        if nameInStates && !curInTransitions then .ok rt
        else if !curInTransitions then
          .error (.error ("Cannot find transition for state " ++ curName))
        else match (List.lookup curName sm.transitions).getD .badE with
          | .fnE f => .ok (f rtName rtParams)
          | .strE s2 => .ok (.str s2)
          | .badE => .error (.error "Cannot decode transition descriptor")
      match nextDesc? with
      | .error e => .error e
      | .ok nextDesc =>
        match nextDesc with
        | .obj t => SMState.changeState sm options.timeSinceStart t.name (some t.params)
        | .str s2 => SMState.changeState sm options.timeSinceStart s2 rtParams
        | _ => .error (.error "Cannot decode state descriptor")
    else .ok sm

/-- `StateMachine.prototype.onSignal(signal, frameInfo, data)`: forwards to
the live state.  (There is no special case for any signal name.) -/
def SMState.onSignal (sm : SMState) (signal : String) : SMState :=
  let sm := { sm with base := Entity.onSignal {} signal sm.base }
  match sm.current with
  | none => sm
  | some (n, beh, cs) => { sm with current := some (n, beh, Entity.onSignal beh signal cs) }

/-- A member of the array passed to the `Alternative` constructor: a bare
entity, or an `{entity, transition}` object whose `transition` key may be
absent. -/
inductive AltDescr where
  | bare (e : EntityBehavior)
  | pair (e : EntityBehavior) (transition : Option String)

/-- The state of one `Alternative` object: for each pair, the resolved
transition tag, the entity's behaviour and its runtime state. -/
structure AltState where
  base : EntityState
  pairs : List (String × EntityBehavior × EntityState)

/-- The `Alternative` constructor: `_.map(entityPairs, ...)` resolving the
transition tag, defaulting to the string form of the positional index. -/
def Alternative.mk (l : List AltDescr) : AltState :=
  { base := {},
    pairs := l.enum.map fun p => match p.2 with
      | .bare e => (toString p.1, e, ({} : EntityState))
      | .pair e t => (t.getD (toString p.1), e, ({} : EntityState)) }

/-- The loop of `Alternative.prototype._setup`: set up each child in order,
overwriting `this.requestedTransition` with the pair's tag whenever the child
it just set up has a truthy `requestedTransition`. -/
def Alternative.setupPairsLoop (acc : TransitionValue) :
    List (String × EntityBehavior × EntityState) →
    List (String × EntityBehavior × EntityState) × TransitionValue
  | [] => ([], acc)
  | (tag, beh, cs) :: rest =>
    let cs := Entity.setup beh cs
    let acc := if cs.requestedTransition.truthy then .str tag else acc
    let (rest', acc') := Alternative.setupPairsLoop acc rest
    ((tag, beh, cs) :: rest', acc')

/-- `Alternative.prototype.setup` (the base setup followed by the `_setup`
hook). -/
def Alternative.setup (a : AltState) : AltState :=
  let base := Entity.setup {} a.base
  let (pairs, rt) := Alternative.setupPairsLoop base.requestedTransition a.pairs
  { base := { base with requestedTransition := rt }, pairs }

/-- The loop of `Alternative.prototype._update`: update each child in order,
overwriting `this.requestedTransition` with the pair's tag whenever the child
it just updated has a truthy `requestedTransition`. -/
def Alternative.updatePairsLoop (fi : FrameInfo) (acc : TransitionValue) :
    List (String × EntityBehavior × EntityState) →
    List (String × EntityBehavior × EntityState) × TransitionValue
  | [] => ([], acc)
  | (tag, beh, cs) :: rest =>
    let cs := Entity.update beh fi cs
    let acc := if cs.requestedTransition.truthy then .str tag else acc
    let (rest', acc') := Alternative.updatePairsLoop fi acc rest
    ((tag, beh, cs) :: rest', acc')

/-- `Alternative.prototype.update` (the base update followed by the `_update`
hook). -/
def Alternative.update (a : AltState) (fi : FrameInfo) : AltState :=
  let base := Entity.update {} fi a.base
  let (pairs, rt) := Alternative.updatePairsLoop fi base.requestedTransition a.pairs
  { base := { base with requestedTransition := rt }, pairs }

/-- The tags of the children whose `requestedTransition` is truthy after the
children receive one update with `fi`, in iteration order. -/
def Alternative.firingTags (fi : FrameInfo)
    (ps : List (String × EntityBehavior × EntityState)) : List String :=
  (ps.filter fun p => (Entity.update p.2.1 fi p.2.2).requestedTransition.truthy).map (·.1)

/-! Concrete scenario states used by the theorems below. -/

/-- A `Parallel` with no descriptors, constructed with `{autoTransition:
false}`, in the state the spec intends after `setup` (set-up base, an empty
`entityContexts` array). -/
def c3parallel : ParallelState :=
  { Parallel.mk [] { autoTransition := some false } with
      base := { isSetup := true, hasConfig := true },
      entityContexts := some [] }

/-- A `Parallel` with one descriptor in the state the spec intends after
`setup`: base set up, the child set up, and slot 0 holding its context. -/
def c4parallel : ParallelState :=
  { Parallel.mk [{}] {} with
      base := { isSetup := true, hasConfig := true },
      childStates := [Entity.setup {} {}],
      entityContexts := some [some ()] }

/-- A child whose `_update` hook always requests a transition. -/
def alwaysTransitionBeh : EntityBehavior := { updateScript := fun _ _ => some (.bool true) }

/-- A set-up `Parallel` whose single active child requests a transition on its
next update. -/
def c8parallel : ParallelState :=
  { Parallel.mk [alwaysTransitionBeh] {} with
      base := { isSetup := true, hasConfig := true },
      childStates := [Entity.setup alwaysTransitionBeh {}],
      entityContexts := some [some ()] }

/-- A tracked listener, as pushed by `this._on(emitter, "pointertap", cb)`. -/
def c5listener : Listener := { emitter := 1, event := "pointertap", cb := 7 }

/-- C1.  For every Parallel constructed with a non-empty list of descriptors,
the claim says the first `setup()` activates every descriptor slot-aligned.
In the source the constructor never initialises `this.entityContexts` (only
`teardown` assigns it), so the first `setup()` throws a `TypeError` at
`this.entityContexts.push(...)` instead. -/
theorem parallel_first_setup_crashes :
    (∀ ds opts, (Parallel.mk ds opts).entityContexts = none) ∧
    Parallel.setup (Parallel.mk [{}] {}) {} =
      .error (.typeError "Cannot read properties of undefined (reading push)") :=
  ⟨fun _ _ => rfl, rfl⟩

/-- C3.  The claim says `{autoTransition: false}` suppresses the automatic
transition.  In the source the constructor computes
`{ ...options, ...new ParallelOptions() }`, so the defaults overwrite the
caller's options and `autoTransition` is always `true`; a Parallel built with
`{autoTransition: false}` whose slots are all empty still requests a fresh
`"done"` transition on update. -/
theorem parallel_autoTransition_ignored :
    (∀ opts, (Parallel.mergedOptions opts).autoTransition = some true) ∧
    (Parallel.update c3parallel {}).map (fun p => p.base.requestedTransition) =
      .ok (.obj { name := "done", params := [] }) :=
  ⟨fun _ => rfl, rfl⟩

/-- C4.  The claim says `deactivateChildEntity` tears down an active slot and
errors only on an inactive one (and `activateChildEntity` errors only on an
active one).  In the source the guard of `deactivateChildEntity` is inverted:
with slot 0 active it throws `Entity is already activated`, and with slot 0
inactive it dereferences the `null` slot, so it can never succeed;
`activateChildEntity` behaves as claimed. -/
theorem parallel_deactivate_check_inverted :
    Parallel.deactivateChildEntity c4parallel 0 {} =
      .error (.error "Entity is already activated") ∧
    Parallel.deactivateChildEntity { c4parallel with entityContexts := some [none] } 0 {} =
      .error (.typeError "Cannot read properties of null (reading entity)") ∧
    Parallel.activateChildEntity c4parallel 0 {} =
      .error (.error "Entity is already activated") ∧
    (Parallel.activateChildEntity { c4parallel with entityContexts := some [none] } 0 {}).isOk
      = true :=
  ⟨rfl, rfl, rfl, rfl⟩

/-- C8.  The claim says a transitioning child is torn down exactly once and
never while `isSetup` is false.  In the source `_updateChildEntity` already
deactivates the transitioning child, and `Parallel.update` then calls
`_deactivateChildEntity` on the same context again, so the child's teardown
runs twice and the second run happens with `isSetup` false (logging the
lifecycle contract violation). -/
theorem parallel_update_double_teardown :
    (Parallel.update c8parallel {}).map
        (fun p => ((p.childStates.getD 0 default).teardownCount,
                   (p.childStates.getD 0 default).errors)) =
      .ok (2, ["teardown() called before setup()"]) :=
  rfl

/-- C5.  The claim says `teardown()` unsubscribes and drops every tracked
listener.  In the source `teardown` calls `_off()` with no arguments, so the
`props` object `{emitter: undefined, event: undefined, cb: undefined}` matches
no tracked listener under `_.partition`'s matcher and nothing is removed: the
tracked list after teardown is exactly the tracked list before it, so repeated
setup/teardown cycles leak every listener. -/
theorem entity_teardown_removes_no_listeners :
    (∀ s : EntityState, (Entity.teardown s).eventListeners = s.eventListeners) ∧
    (Entity.teardown (Entity.onEvt c5listener (Entity.setup {} {}))).eventListeners =
      [c5listener] := by
  constructor
  · intro s
    simp only [Entity.teardown, Entity.offEvt, listenerMatches]
    split <;> simp
  · rfl

/-- C10 counterexample.  `Transitory` is an entity whose `_setup` hook
requests its configured transition, so immediately after its `setup()`
returns, `requestedTransition` is the default `Transition` rather than
`null`. -/
theorem transitory_requests_transition_in_setup :
    (Entity.setup Transitory.beh {}).requestedTransition = .obj {} ∧
    (Entity.setup Transitory.beh {}).requestedTransition ≠ .null :=
  ⟨rfl, by decide⟩

/-- C10 (amended).  `isSetup` is false on a fresh entity and after teardown,
true after setup, and unchanged by update and onSignal; `setup()` resets
`requestedTransition` to null before invoking the subclass setup hook, so it
is null after `setup()` returns whenever that hook does not itself request a
transition. -/
theorem entity_lifecycle_flags (beh : EntityBehavior) (fi : FrameInfo) (sig : String)
    (s : EntityState) :
    ({} : EntityState).isSetup = false ∧
    (Entity.setup beh s).isSetup = true ∧
    (Entity.teardown s).isSetup = false ∧
    (Entity.update beh fi s).isSetup = s.isSetup ∧
    (Entity.onSignal beh sig s).isSetup = s.isSetup ∧
    (beh.setupScript = none → (Entity.setup beh s).requestedTransition = .null) := by
  refine ⟨rfl, ?_, rfl, ?_, ?_, ?_⟩
  · unfold Entity.setup
    cases beh.setupScript <;> simp
  · simp only [Entity.update]
    split <;> split <;> rfl
  · unfold Entity.onSignal
    cases beh.onSignalScript sig <;> split <;> simp
  · intro h
    unfold Entity.setup
    rw [h]

/-- C10 witness: the amended statement evaluated on the base entity (whose
setup hook is empty), with the hypothesis discharged. -/
theorem entity_lifecycle_flags_witness :
    (({} : EntityBehavior).setupScript = none) ∧
    (Entity.setup {} ({} : EntityState)).requestedTransition = .null :=
  ⟨rfl, (entity_lifecycle_flags {} {} "reset" {}).2.2.2.2.2 rfl⟩

/-- C7.  For a StateMachine, when the resolved next-state name is in
`endingStates`, `_changeState` only sets the machine's `requestedTransition`
to that name and records the visit — the current state, the setup log and the
factory log are untouched, so no entity is instantiated or set up for it; and
when the resolved name is neither an ending state nor a key of `states`, it
raises a fatal error. -/
theorem stateMachine_ending_or_missing_state (sm : SMState) (t : Int) (name : String)
    (ps : Option Params) :
    (sm.endingStates.contains name = true →
      SMState.changeState sm t name ps =
        .ok { sm with base := { sm.base with requestedTransition := .str name },
                      visitedStates := sm.visitedStates ++ [name] }) ∧
    (sm.endingStates.contains name = false →
      List.lookup name sm.states = none →
      SMState.changeState sm t name ps = .error (.error ("Cannot find state " ++ name))) := by
  constructor
  · intro h
    unfold SMState.changeState
    rw [if_pos h]
  · intro h1 h2
    unfold SMState.changeState
    rw [if_neg (by rw [h1]; exact Bool.false_ne_true)]
    cases hc : sm.current with
    | none => simp only [hc, h2]
    | some c =>
      obtain ⟨n, beh, cs⟩ := c
      simp only [hc, h2]

/-- A one-state machine used to evaluate the C7 theorem. -/
def c7machine : SMState := StateMachine.mk [("start", .inst {})] []

/-- C7 witness: the theorem evaluated at a concrete machine, for the ending
name `"end"` and for the unknown name `"zzz"`. -/
theorem stateMachine_ending_or_missing_state_witness :
    (SMState.changeState c7machine 0 "end" none =
      .ok { c7machine with
              base := { c7machine.base with requestedTransition := .str "end" },
              visitedStates := c7machine.visitedStates ++ ["end"] }) ∧
    SMState.changeState c7machine 0 "zzz" none =
      .error (.error ("Cannot find state " ++ "zzz")) :=
  ⟨(stateMachine_ending_or_missing_state c7machine 0 "end" none).1 (by decide),
   (stateMachine_ending_or_missing_state c7machine 0 "zzz" none).2 (by decide) rfl⟩

/-- The name of the machine's current state (`this.stateName`). -/
def SMState.currentName (sm : SMState) : Option String := sm.current.map (·.1)

/-- The index carried by an `EntitySequence` call result (`0` for the error
case, which the theorems below exclude). -/
def seqIdxOf : Except JsError SequenceState → Nat
  | .ok s => s.currentEntityIndex
  | .error _ => 0

/-- The sequence's own `requestedTransition` carried by a call result. -/
def seqReqOf : Except JsError SequenceState → TransitionValue
  | .ok s => s.base.requestedTransition
  | .error _ => .null

/-- A state entity whose first update requests the transition `"b"`. -/
def c6startBeh : EntityBehavior := { updateScript := fun _ _ => some (.str "b") }

/-- A two-state machine with an empty transition table, so the requested
transition name `"b"` resolves through the shorthand path. -/
def c6machine : SMState := StateMachine.mk [("start", .inst c6startBeh), ("b", .inst {})] []

/-- The C6 scenario: set the machine up (entering `"start"`), update once so
that it moves to state `"b"`, then deliver the signal `"reset"`. -/
def c6scenario : Except JsError SMState :=
  ((SMState.setup c6machine).bind fun sm =>
    SMState.update sm { timeSinceStart := 1 }).map fun sm => SMState.onSignal sm "reset"

/-- C6 counterexample.  Delivering `onSignal("reset")` to a set-up
StateMachine does not restart it: a machine driven from its starting state to
state `"b"` is still in `"b"` after the signal (its `onSignal` merely forwards
to the live state; only EntitySequence special-cases `"reset"`). -/
theorem stateMachine_ignores_reset :
    c6scenario.map SMState.currentName = .ok (some "b") ∧
    (some "b" : Option String) ≠ some "start" :=
  ⟨rfl, by decide⟩

/-- C6 (amended).  Delivering the signal `"reset"` to a set-up, unfinished
EntitySequence restarts it from index 0; delivering it to a StateMachine
leaves the machine's current state name and setup log unchanged (the signal is
only forwarded to the live state's entity). -/
theorem reset_restarts_sequence_not_machine (s : SequenceState) (sm : SMState)
    (h1 : s.base.requestedTransition.truthy = false)
    (h2 : s.hasCurrentEntity = true)
    (h3 : s.entities ≠ []) :
    (EntitySequence.onSignal s "reset").isOk = true ∧
    seqIdxOf (EntitySequence.onSignal s "reset") = 0 ∧
    SMState.currentName (SMState.onSignal sm "reset") = SMState.currentName sm ∧
    (SMState.onSignal sm "reset").setupLog = sm.setupLog := by
  have hlen : 0 < s.entities.length := List.length_pos.mpr h3
  have main : (EntitySequence.onSignal s "reset").isOk = true ∧
      seqIdxOf (EntitySequence.onSignal s "reset") = 0 := by
    unfold EntitySequence.onSignal
    rw [h1]
    simp only [Bool.false_eq_true, if_false, h2, Bool.not_true, eq_self_iff_true, if_true]
    unfold EntitySequence.restart EntitySequence.deactivateEntity EntitySequence.activateEntity
    split
    · dsimp only
      rw [if_pos hlen]
      exact ⟨rfl, rfl⟩
    · dsimp only
      rw [if_pos hlen]
      exact ⟨rfl, rfl⟩
  refine ⟨main.1, main.2, ?_, ?_⟩
  · unfold SMState.onSignal SMState.currentName
    cases hc : sm.current with
    | none => simp [hc]
    | some c => obtain ⟨n, beh, cs⟩ := c; simp [hc]
  · unfold SMState.onSignal
    cases hc : sm.current with
    | none => simp [hc]
    | some c => obtain ⟨n, beh, cs⟩ := c; simp [hc]

/-- A set-up one-entity sequence (the state the spec intends right after
`EntitySequence.setup`). -/
def c6seqState : SequenceState :=
  { EntitySequence.mk [{}] with
      base := { isSetup := true, hasConfig := true },
      childStates := [Entity.setup {} {}],
      hasCurrentEntity := true }

/-- C6 witness: the amended statement evaluated on a concrete set-up sequence
and the concrete machine. -/
theorem reset_restarts_sequence_not_machine_witness :
    (EntitySequence.onSignal c6seqState "reset").isOk = true ∧
    seqIdxOf (EntitySequence.onSignal c6seqState "reset") = 0 ∧
    SMState.currentName (SMState.onSignal c6machine "reset") =
      SMState.currentName c6machine ∧
    (SMState.onSignal c6machine "reset").setupLog = c6machine.setupLog :=
  reset_restarts_sequence_not_machine c6seqState c6machine rfl rfl
    (List.cons_ne_nil _ _)

/-- Folding a list of tags with the overwrite step used by `Alternative`
keeps the last tag when the list is non-empty, and the accumulator otherwise. -/
theorem foldl_overwrite_getLast (l : List String) : ∀ acc : TransitionValue,
    l.foldl (fun _ t => TransitionValue.str t) acc =
      (l.getLast?).elim acc TransitionValue.str := by
  induction l with
  | nil => intro acc; rfl
  | cons x rest ih =>
    intro acc
    cases rest with
    | nil => rfl
    | cons y t =>
      cases hz : (y :: t).getLast? with
      | none =>
        exact absurd (List.getLast?_eq_none_iff.mp hz) (List.cons_ne_nil y t)
      | some z =>
        rw [List.foldl_cons, ih, List.getLast?_cons_cons, hz]
        rfl

/-- The accumulator returned by the `_update` loop of `Alternative` is the
overwrite-fold of the tags of the children that fired during the pass. -/
theorem alternative_updateLoop_acc (fi : FrameInfo) :
    ∀ (ps : List (String × EntityBehavior × EntityState)) (acc : TransitionValue),
    (Alternative.updatePairsLoop fi acc ps).2 =
      (Alternative.firingTags fi ps).foldl (fun _ t => TransitionValue.str t) acc := by
  intro ps
  induction ps with
  | nil => intro acc; rfl
  | cons p rest ih =>
    obtain ⟨tag, beh, cs⟩ := p
    intro acc
    cases hc : (Entity.update beh fi cs).requestedTransition.truthy with
    | true =>
      simp only [Alternative.updatePairsLoop, Alternative.firingTags, List.filter_cons,
        hc, if_true, List.map_cons, List.foldl_cons]
      rw [ih]
      rfl
    | false =>
      simp only [Alternative.updatePairsLoop, Alternative.firingTags, List.filter_cons,
        hc, Bool.false_eq_true, if_false]
      rw [ih]
      rfl

/-- A two-child `Alternative` with tags `"x"` and `"y"` whose children both
request a transition on their first update, after its `setup`. -/
def c2alt : AltState :=
  Alternative.setup (Alternative.mk
    [.pair alwaysTransitionBeh (some "x"), .pair alwaysTransitionBeh (some "y")])

/-- C2 counterexample.  When both children of
`Alternative([{entity: X, transition: "x"}, {entity: Y, transition: "y"}])`
request a transition on the same update, the Alternative adopts `"y"`, not
`"x"`: the `_update` loop overwrites `requestedTransition` for every firing
child in iteration order, so the last index wins. -/
theorem alternative_adopts_last_not_first :
    (Alternative.update c2alt {}).base.requestedTransition = .str "y" ∧
    TransitionValue.str "y" ≠ .str "x" :=
  ⟨rfl, by decide⟩

/-- C2 (amended).  When at least one child of an Alternative has a pending
requested transition after an update that reaches all children, the
Alternative's own `requestedTransition` is the configured tag of the firing
child with the greatest index (the last one in iteration order). -/
theorem alternative_last_truthy_child_wins (a : AltState) (fi : FrameInfo) (tag : String)
    (h : (Alternative.firingTags fi a.pairs).getLast? = some tag) :
    (Alternative.update a fi).base.requestedTransition = .str tag := by
  have hacc := alternative_updateLoop_acc fi a.pairs
    (Entity.update {} fi a.base).requestedTransition
  rw [foldl_overwrite_getLast, h] at hacc
  unfold Alternative.update
  rcases hl : Alternative.updatePairsLoop fi
      (Entity.update {} fi a.base).requestedTransition a.pairs with ⟨ps', rt'⟩
  rw [hl] at hacc
  simp only [hl]
  exact hacc

/-- C2 witness: the amended statement evaluated on the concrete two-child
Alternative, with the hypothesis discharged. -/
theorem alternative_last_truthy_child_wins_witness :
    (Alternative.firingTags {} c2alt.pairs).getLast? = some "y" ∧
    (Alternative.update c2alt {}).base.requestedTransition = .str "y" :=
  ⟨rfl, alternative_last_truthy_child_wins c2alt {} "y" rfl⟩

/-- Computation rule for truthiness of `null`. -/
theorem truthy_null : TransitionValue.truthy .null = false := rfl

/-- The state of the current child after the child update performed inside
`EntitySequence.update s options` (the child receives the child-relative
`timeSinceStart`). -/
def EntitySequence.childAfterUpdate (s : SequenceState) (options : FrameInfo) : EntityState :=
  Entity.update (s.entities.getD s.currentEntityIndex default)
    { options with timeSinceStart := options.timeSinceStart - s.childStartedAt }
    (s.childStates.getD s.currentEntityIndex default)

/-- Projection lemma: `_deactivateEntity` only changes `childStates`. -/
theorem EntitySequence.deact_currentEntityIndex (s : SequenceState) :
    (EntitySequence.deactivateEntity s).currentEntityIndex = s.currentEntityIndex := by
  unfold EntitySequence.deactivateEntity
  split <;> rfl

/-- Projection lemma: `_deactivateEntity` preserves the descriptor list. -/
theorem EntitySequence.deact_entities (s : SequenceState) :
    (EntitySequence.deactivateEntity s).entities = s.entities := by
  unfold EntitySequence.deactivateEntity
  split <;> rfl

/-- Projection lemma: `_deactivateEntity` preserves `lastUpdateOptions`. -/
theorem EntitySequence.deact_lastUpdateOptions (s : SequenceState) :
    (EntitySequence.deactivateEntity s).lastUpdateOptions = s.lastUpdateOptions := by
  unfold EntitySequence.deactivateEntity
  split <;> rfl

/-- Behaviour of `_advance` for a non-looping sequence with an in-range index
whose `lastUpdateOptions` has been recorded: the index stays strictly below
the number of entities, and at the last index the sequence adopts the given
transition verbatim. -/
theorem EntitySequence.advance_spec (s : SequenceState) (t : TransitionValue) (lu : FrameInfo)
    (hloop : s.loop = false)
    (hlu : s.lastUpdateOptions = some lu)
    (hidx : s.currentEntityIndex < s.entities.length) :
    seqIdxOf (EntitySequence.advance s t) < s.entities.length ∧
    (s.currentEntityIndex = s.entities.length - 1 →
      seqReqOf (EntitySequence.advance s t) = t) := by
  unfold EntitySequence.advance
  by_cases hlt : s.currentEntityIndex < s.entities.length - 1
  · rw [if_pos hlt]
    dsimp only
    rw [EntitySequence.deact_lastUpdateOptions, hlu]
    dsimp only
    unfold EntitySequence.activateEntity
    dsimp only
    rw [EntitySequence.deact_currentEntityIndex, EntitySequence.deact_entities,
      if_pos (by omega)]
    constructor
    · simp only [seqIdxOf, EntitySequence.deact_currentEntityIndex]
      omega
    · intro h1
      exact absurd h1 (by omega)
  · rw [if_neg hlt]
    simp only [hloop, Bool.false_eq_true, if_false]
    constructor
    · simp only [seqIdxOf, EntitySequence.deact_currentEntityIndex]
      omega
    · intro _
      rfl

/-- C9.  For a set-up, non-looping EntitySequence whose index is in range,
one `update` keeps `currentEntityIndex` strictly below the number of
entities (so it never advances past N-1), and when the update happens at the
last index and the child requests a transition, the sequence's own
`requestedTransition` becomes that child transition verbatim. -/
theorem entitySequence_index_bound_and_final_transition (s : SequenceState) (fi : FrameInfo)
    (hloop : s.loop = false)
    (hnull : s.lastRequestedTransition = .null)
    (hcur : s.hasCurrentEntity = true)
    (hidx : s.currentEntityIndex < s.entities.length) :
    seqIdxOf (EntitySequence.update s fi) < s.entities.length ∧
    (s.currentEntityIndex = s.entities.length - 1 →
      (EntitySequence.childAfterUpdate s fi).requestedTransition.truthy = true →
      seqReqOf (EntitySequence.update s fi) =
        (EntitySequence.childAfterUpdate s fi).requestedTransition) := by
  unfold EntitySequence.update EntitySequence.childAfterUpdate
  dsimp only
  rw [hnull]
  simp only [truthy_null, Bool.false_eq_true, if_false, hcur, Bool.not_true,
    if_neg (Nat.not_le.mpr hidx)]
  generalize Entity.update (s.entities.getD s.currentEntityIndex default)
      { timeSinceStart := fi.timeSinceStart - s.childStartedAt }
      (s.childStates.getD s.currentEntityIndex default) = cs
  cases ht : cs.requestedTransition.truthy with
  | false =>
    simp only [ht, Bool.false_eq_true, if_false]
    exact ⟨by simpa [seqIdxOf] using hidx, fun _ htr => htr.elim⟩
  | true =>
    simp only [ht, if_true]
    have spec := EntitySequence.advance_spec
      { base := Entity.update {} fi s.base,
        entities := s.entities, childStates := s.childStates.set s.currentEntityIndex cs,
        currentEntityIndex := s.currentEntityIndex, hasCurrentEntity := true,
        childStartedAt := s.childStartedAt, lastUpdateOptions := some fi,
        lastRequestedTransition := .null, loop := s.loop }
      cs.requestedTransition fi hloop rfl hidx
    exact ⟨spec.1, fun h1 _ => spec.2 h1⟩

/-- The last entity of the concrete two-entity sequence; it requests the
transition `"fin"` on its first update. -/
def c9behB : EntityBehavior := { updateScript := fun _ _ => some (.str "fin") }

/-- A set-up two-entity non-looping sequence that has already advanced to its
last entity (the first entity completed and was torn down). -/
def c9seq : SequenceState :=
  { EntitySequence.mk [{}, c9behB] with
      base := { isSetup := true, hasConfig := true },
      childStates := [Entity.teardown (Entity.setup {} {}), Entity.setup c9behB {}],
      currentEntityIndex := 1, hasCurrentEntity := true }

/-- C9 witness: the theorem evaluated on the concrete sequence at its last
index, whose child requests `"fin"`; the final update adopts it verbatim. -/
theorem entitySequence_index_bound_and_final_transition_witness :
    c9seq.currentEntityIndex = c9seq.entities.length - 1 ∧
    (EntitySequence.childAfterUpdate c9seq {}).requestedTransition.truthy = true ∧
    seqIdxOf (EntitySequence.update c9seq {}) < c9seq.entities.length ∧
    seqReqOf (EntitySequence.update c9seq {}) =
      (EntitySequence.childAfterUpdate c9seq {}).requestedTransition :=
  ⟨rfl, rfl,
   (entitySequence_index_bound_and_final_transition c9seq {} rfl rfl rfl (by decide)).1,
   (entitySequence_index_bound_and_final_transition c9seq {} rfl rfl rfl (by decide)).2 rfl rfl⟩

end Booyah
